import Mathlib

/-
Verification of the kaze hardware-description library against its
specification. The definitions below are a shallow embedding of the Rust
sources:
  - kaze/src/module.rs (early-version module graph API),
  - kaze/src/system_verilog.rs (SystemVerilog generator),
  - kaze/src/sim/module_context.rs (module context tree),
  - kaze-sim-tests/src/lib.rs (tests of generated simulator modules).
Arena-allocated nodes are modelled as pure trees; pointer identity of
modules is modelled by a structure holding the owning context identity and
an allocation identity, so that two module values are equal exactly when
the corresponding Rust references are pointer-equal. Rust panics are
modelled with Except errors. Widths are u32 in the source; they are
modelled as Nat with an explicit reduction modulo 2 ^ 32 at the arithmetic
sites where u32 overflow is reachable.
-/

namespace Kaze

/-- The Value enum from module.rs. Each variant carries the numeric payload
of the corresponding Rust integer type, modelled as Nat (a payload of a uN
variant is kept reduced modulo 2 ^ N by the Rust type itself). -/
inductive Value where
  | Bool (b : Bool)
  | U8 (v : Nat)
  | U16 (v : Nat)
  | U32 (v : Nat)
  | U64 (v : Nat)
  | U128 (v : Nat)
deriving DecidableEq

/-- Numeric interpretation of a Value (the later-version sources expose this
as numeric_value; used here to state the fits-in-width property). -/
def Value.numericValue : Value → Nat
  | .Bool b => if b then 1 else 0
  | .U8 v => v
  | .U16 v => v
  | .U32 v => v
  | .U64 v => v
  | .U128 v => v

/-- Identity of an arena-allocated Module from module.rs. The Rust Module
struct holds a back-reference to its owning Context and is compared by
address (ptr eq); two Module references are pointer-equal exactly when they
denote the same allocation, which this model renders as equality of the
(context, id) pair. The mutable name tables (inputs, outputs) of a module
are modelled separately as explicit state. -/
structure Module where
  context : Nat
  id : Nat
deriving DecidableEq

/-- MIN_SIGNAL_BIT_WIDTH from module.rs. -/
def MIN_SIGNAL_BIT_WIDTH : Nat := 1

/-- MAX_SIGNAL_BIT_WIDTH from module.rs. -/
def MAX_SIGNAL_BIT_WIDTH : Nat := 128

/-- Modulus for u32 arithmetic. -/
def U32_MOD : Nat := 2 ^ 32

/-- The UnOp enum from module.rs. -/
inductive UnOp where
  | Not
deriving DecidableEq

/-- The BinOp enum from module.rs. -/
inductive BinOp where
  | BitAnd
  | BitOr
  | BitXor
deriving DecidableEq

/-- The Signal struct of module.rs together with its SignalData enum,
flattened: every constructor corresponds to one SignalData variant and
additionally carries the two common Signal fields (context, module).
The next field of Reg is the RefCell content at a given point in time. -/
inductive Signal where
  | Lit (context : Nat) (module : Module) (value : Value) (bit_width : Nat)
  | Input (context : Nat) (module : Module) (name : String) (bit_width : Nat)
  | Reg (context : Nat) (module : Module) (initial_value : Value) (bit_width : Nat)
      (next : Option Signal)
  | UnOp (context : Nat) (module : Module) (source : Signal) (op : UnOp)
  | BinOp (context : Nat) (module : Module) (lhs rhs : Signal) (op : BinOp)
  | Bit (context : Nat) (module : Module) (source : Signal) (index : Nat)
  | Bits (context : Nat) (module : Module) (source : Signal) (range_high range_low : Nat)
  | Repeat (context : Nat) (module : Module) (source : Signal) (count : Nat)
  | Concat (context : Nat) (module : Module) (lhs rhs : Signal)
  | Mux (context : Nat) (module : Module) (a b sel : Signal)

/-- The context field of a Signal. -/
def Signal.context : Signal → Nat
  | .Lit c _ _ _ => c
  | .Input c _ _ _ => c
  | .Reg c _ _ _ _ => c
  | .UnOp c _ _ _ => c
  | .BinOp c _ _ _ _ => c
  | .Bit c _ _ _ => c
  | .Bits c _ _ _ _ => c
  | .Repeat c _ _ _ => c
  | .Concat c _ _ _ => c
  | .Mux c _ _ _ _ => c

/-- The module field of a Signal. -/
def Signal.module : Signal → Module
  | .Lit _ m _ _ => m
  | .Input _ m _ _ => m
  | .Reg _ m _ _ _ => m
  | .UnOp _ m _ _ => m
  | .BinOp _ m _ _ _ => m
  | .Bit _ m _ _ => m
  | .Bits _ m _ _ _ => m
  | .Repeat _ m _ _ => m
  | .Concat _ m _ _ => m
  | .Mux _ m _ _ _ => m

/-- Signal::bit_width from module.rs, derived from structure exactly as in
the source. The source computes in u32; the Repeat and Concat cases reduce
modulo 2 ^ 32 because u32 overflow is reachable there (the Bits case
cannot overflow for any signal the checked constructor produces, and Nat
truncated subtraction agrees with the source wherever range_low is at most
range_high, which the constructor enforces). -/
def Signal.bit_width : Signal → Nat
  | .Lit _ _ _ w => w
  | .Input _ _ _ w => w
  | .Reg _ _ _ w _ => w
  | .UnOp _ _ s _ => s.bit_width
  | .BinOp _ _ l _ _ => l.bit_width
  | .Bit _ _ _ _ => 1
  | .Bits _ _ _ hi lo => hi - lo + 1
  | .Repeat _ _ s c => s.bit_width * c % U32_MOD
  | .Concat _ _ l r => (l.bit_width + r.bit_width) % U32_MOD
  | .Mux _ _ a _ _ => a.bit_width

/-- Panics of the construction-time checks in module.rs, one constructor
per panic site, carrying the data the panic message reports. -/
inductive BuildError where
  | widthTooSmall (bit_width : Nat)
  | widthTooLarge (bit_width : Nat)
  | crossModule
  | widthMismatch (lhs_width rhs_width : Nat)
  | indexOutOfRange (index : Nat) (bit_width : Nat)
  | rangeLowOutOfRange (range_low : Nat) (bit_width : Nat)
  | rangeHighOutOfRange (range_high : Nat) (bit_width : Nat)
  | rangeLowGreaterThanHigh (range_low range_high : Nat)
deriving DecidableEq

/-- Module::lit from module.rs: checks the width range only; the source has
a TODO in place of the value-fits-within-bit_width check, so no such check
is performed. -/
def Module.lit (m : Module) (value : Value) (bit_width : Nat) : Except BuildError Signal :=
  if bit_width < MIN_SIGNAL_BIT_WIDTH then .error (.widthTooSmall bit_width)
  else if bit_width > MAX_SIGNAL_BIT_WIDTH then .error (.widthTooLarge bit_width)
  else .ok (.Lit m.context m value bit_width)

/-- Module::low from module.rs. -/
def Module.low (m : Module) : Except BuildError Signal :=
  m.lit (.Bool false) 1

/-- Module::high from module.rs. -/
def Module.high (m : Module) : Except BuildError Signal :=
  m.lit (.Bool true) 1

/-- Insertion into a BTreeMap keyed by String, as used for the per-module
input and output tables: keys are kept in sorted order and inserting an
existing key replaces the previous value silently. -/
def btreeInsert {α : Type} : List (String × α) → String → α → List (String × α)
  | [], key, v => [(key, v)]
  | (k, w) :: rest, key, v =>
    if key = k then (key, v) :: rest
    else if key < k then (key, v) :: (k, w) :: rest
    else (k, w) :: btreeInsert rest key v

/-- Lookup in a BTreeMap modelled as an association list. -/
def btreeLookup {α : Type} (map : List (String × α)) (key : String) : Option α :=
  (map.find? (fun p => p.1 == key)).map Prod.snd

/-- Module::input from module.rs. The inputs RefCell table is passed and
returned explicitly. The source has a TODO in place of a duplicate-name
check: after the width-range checks the new input signal is inserted
unconditionally, replacing any previous entry of the same name. -/
def Module.input (m : Module) (inputs : List (String × Signal)) (name : String)
    (bit_width : Nat) : Except BuildError (List (String × Signal) × Signal) :=
  if bit_width < MIN_SIGNAL_BIT_WIDTH then .error (.widthTooSmall bit_width)
  else if bit_width > MAX_SIGNAL_BIT_WIDTH then .error (.widthTooLarge bit_width)
  else
    let signal : Signal := .Input m.context m name bit_width
    .ok (btreeInsert inputs name signal, signal)

/-- The Output struct from module.rs. -/
structure Output where
  source : Signal

/-- Module::output from module.rs. Checks that the source signal belongs to
this module (by pointer equality); the source has a TODO in place of a
duplicate-name check, so the insertion replaces any previous entry. -/
def Module.output (m : Module) (outputs : List (String × Output)) (name : String)
    (source : Signal) : Except BuildError (List (String × Output)) :=
  if source.module ≠ m then .error .crossModule
  else .ok (btreeInsert outputs name ⟨source⟩)

/-- The Register struct from module.rs. -/
structure Register where
  value : Signal

/-- Module::reg from module.rs. The source has TODOs in place of both the
bit_width bounds checks and the initial-value-fits check, so no check is
performed; a missing initial value defaults to Value::U32(0) and the next
cell starts unset. -/
def Module.reg (m : Module) (bit_width : Nat) (initial_value : Option Value) : Register :=
  ⟨.Reg m.context m (initial_value.getD (.U32 0)) bit_width none⟩

/-- Module::mux from module.rs. The source has TODOs in place of the
equal-width check for a and b and the one-bit check for sel, so no check is
performed. -/
def Module.mux (m : Module) (a b sel : Signal) : Signal :=
  .Mux m.context m a b sel

/-- Signal::bit from module.rs. -/
def Signal.bit (s : Signal) (index : Nat) : Except BuildError Signal :=
  if index ≥ s.bit_width then .error (.indexOutOfRange index s.bit_width)
  else .ok (.Bit s.context s.module s index)

/-- Signal::bits from module.rs. -/
def Signal.bits (s : Signal) (range_high range_low : Nat) : Except BuildError Signal :=
  if range_low ≥ s.bit_width then .error (.rangeLowOutOfRange range_low s.bit_width)
  else if range_high ≥ s.bit_width then .error (.rangeHighOutOfRange range_high s.bit_width)
  else if range_low > range_high then .error (.rangeLowGreaterThanHigh range_low range_high)
  else .ok (.Bits s.context s.module s range_high range_low)

/-- Signal::repeat from module.rs: the target width is computed in u32 and
checked against the width bounds. -/
def Signal.repeat (s : Signal) (count : Nat) : Except BuildError Signal :=
  let target_bit_width := s.bit_width * count % U32_MOD
  if target_bit_width < MIN_SIGNAL_BIT_WIDTH then .error (.widthTooSmall target_bit_width)
  else if target_bit_width > MAX_SIGNAL_BIT_WIDTH then .error (.widthTooLarge target_bit_width)
  else .ok (.Repeat s.context s.module s count)

/-- Signal::concat from module.rs. -/
def Signal.concat (s rhs : Signal) : Except BuildError Signal :=
  let target_bit_width := (s.bit_width + rhs.bit_width) % U32_MOD
  if target_bit_width > MAX_SIGNAL_BIT_WIDTH then .error (.widthTooLarge target_bit_width)
  else .ok (.Concat s.context s.module s rhs)

/-- The BitAnd impl for Signal from module.rs: checks module pointer
equality, then width equality, then allocates the BinOp node. -/
def Signal.bitand (lhs rhs : Signal) : Except BuildError Signal :=
  if lhs.module ≠ rhs.module then .error .crossModule
  else if lhs.bit_width ≠ rhs.bit_width then .error (.widthMismatch lhs.bit_width rhs.bit_width)
  else .ok (.BinOp lhs.context lhs.module lhs rhs .BitAnd)

/-- The BitOr impl for Signal from module.rs. -/
def Signal.bitor (lhs rhs : Signal) : Except BuildError Signal :=
  if lhs.module ≠ rhs.module then .error .crossModule
  else if lhs.bit_width ≠ rhs.bit_width then .error (.widthMismatch lhs.bit_width rhs.bit_width)
  else .ok (.BinOp lhs.context lhs.module lhs rhs .BitOr)

/-- The BitXor impl for Signal from module.rs. -/
def Signal.bitxor (lhs rhs : Signal) : Except BuildError Signal :=
  if lhs.module ≠ rhs.module then .error .crossModule
  else if lhs.bit_width ≠ rhs.bit_width then .error (.widthMismatch lhs.bit_width rhs.bit_width)
  else .ok (.BinOp lhs.context lhs.module lhs rhs .BitXor)

/-- The Not impl for Signal from module.rs: no checks. -/
def Signal.notOp (s : Signal) : Signal :=
  .UnOp s.context s.module s .Not

/-- Register::drive_next_with from module.rs: sets the next cell to the
given signal unconditionally. The source has TODOs in place of the
same-module check, the width check and the not-already-driven check, so a
second call silently overwrites. The default branch corresponds to the
unreachable arm of the source match, which cannot fire for a register
minted by Module::reg. -/
def Register.drive_next_with (r : Register) (n : Signal) : Register :=
  match r.value with
  | .Reg c m iv w _ => ⟨.Reg c m iv w (some n)⟩
  | _ => r

/-- The ModuleContext struct from sim/module_context.rs. Arena-allocated
context-tree nodes are modelled as entries of a list indexed by allocation
order; references into the arena are list indices and pointer equality of
nodes is index equality. The instance pointer used as the key of the
children HashMap is modelled as Nat. -/
structure ModuleContext where
  instanceAndParent : Option (Nat × Nat)
  children : List (Nat × Nat)
deriving DecidableEq

instance : Inhabited ModuleContext := ⟨⟨none, []⟩⟩

/-- HashMap lookup by key, as used by the children map of get_child. -/
def hashMapLookup (map : List (Nat × Nat)) (key : Nat) : Option Nat :=
  (map.find? (fun p => p.1 == key)).map Prod.snd

/-- ModuleContext::new from sim/module_context.rs. -/
def ModuleContext.new : ModuleContext := ⟨none, []⟩

/-- ModuleContext::get_child from sim/module_context.rs: self is the arena
index of the receiver node. If the children map of the receiver has no
entry for the instance key, a child node (whose instance_and_parent points
back at the instance and the receiver) is allocated at the end of the
arena and recorded in the children map; the entry for the key is then
returned together with the updated arena. -/
def ModuleContext.get_child (arena : List ModuleContext) (self : Nat) (inst : Nat) :
    List ModuleContext × Nat :=
  let node := arena.getD self default
  match hashMapLookup node.children inst with
  | some c => (arena, c)
  | none =>
    let childIdx := arena.length
    let child : ModuleContext := ⟨some (inst, self), []⟩
    ((arena ++ [child]).set self ⟨node.instanceAndParent, (inst, childIdx) :: node.children⟩,
      childIdx)

/-- Modelled from the spec: the simulator code generator is not part of the
provided sources; only the tests that drive its generated modules are
(kaze-sim-tests/src/lib.rs). Following spec section 4.G, a generated
simulator module has input, register and output state together with prop
(recompute outputs and register next values from current inputs and
register current values), posedge_clk (latch next values into current
values without recomputation), reset (restore registers with a declared
initial value, leave the rest unchanged) and new (registers start at their
initial values, 0 if absent). The combinational functions of a concrete
generated module are the fields of this record. -/
structure SimulatorModule (I R O : Type) where
  computeOutputs : I → R → O
  computeNextRegs : I → R → R
  initialRegs : R
  resetRegs : R → R

/-- State of a running generated simulator module: public input fields,
register current values, register next values, public output fields. -/
structure SimulatorState (I R O : Type) where
  inputs : I
  regValues : R
  regNexts : R
  outputs : O

/-- Modelled from the spec: prop recomputes all combinational outputs and
all register next values from the current inputs and the register current
values. -/
def SimulatorModule.prop {I R O : Type} (m : SimulatorModule I R O)
    (s : SimulatorState I R O) : SimulatorState I R O :=
  { s with
    outputs := m.computeOutputs s.inputs s.regValues,
    regNexts := m.computeNextRegs s.inputs s.regValues }

/-- Modelled from the spec: posedge_clk latches every register next value
into its current value and does not recompute outputs. -/
def SimulatorModule.posedge_clk {I R O : Type} (_ : SimulatorModule I R O)
    (s : SimulatorState I R O) : SimulatorState I R O :=
  { s with regValues := s.regNexts }

/-- Modelled from the spec: reset restores every register with a declared
initial value and leaves registers without one unchanged. -/
def SimulatorModule.reset {I R O : Type} (m : SimulatorModule I R O)
    (s : SimulatorState I R O) : SimulatorState I R O :=
  { s with regValues := m.resetRegs s.regValues }

/-- Modelled from the spec: new constructs a state with registers at their
initial values; inputs and outputs start zeroed (the given defaults). -/
def SimulatorModule.new {I R O : Type} (m : SimulatorModule I R O) (i0 : I) (o0 : O) :
    SimulatorState I R O :=
  ⟨i0, m.initialRegs, m.initialRegs, o0⟩

/-- The RegTestModule generated for kaze-sim-tests/src/lib.rs: two 32-bit
inputs i1 and i2, two 32-bit registers (the first with declared initial
value 0, the second explicitly without one, per the comments of the
reg_test_module test), outputs o1 and o2 exposing the register current
values, next values driven by the inputs. -/
def regTestModule : SimulatorModule (Nat × Nat) (Nat × Nat) (Nat × Nat) where
  computeOutputs := fun _ r => r
  computeNextRegs := fun i _ => (i.1 % U32_MOD, i.2 % U32_MOD)
  initialRegs := (0, 0)
  resetRegs := fun r => (0, r.2)

/-- The signal node variants of the later-version graph consumed by
system_verilog.rs (crate graph is not among the provided sources; the
variants follow spec section 3). Register value nodes and instance outputs
are referenced by name. -/
inductive SVBinOp where
  | BitAnd
  | BitOr
  | BitXor
  | Add
  | Eq
  | Ne
  | Lt
  | Le
  | Gt
  | Ge
  | LtSigned
  | LeSigned
  | GtSigned
  | GeSigned
deriving DecidableEq

inductive SVSignal where
  | Lit (value : Nat) (bit_width : Nat)
  | Input (name : String) (bit_width : Nat)
  | Reg (name : String) (bit_width : Nat)
  | UnOpNot (source : SVSignal)
  | BinOp (op : SVBinOp) (lhs rhs : SVSignal)
  | Bit (source : SVSignal) (index : Nat)
  | Bits (source : SVSignal) (range_high range_low : Nat)
  | Repeat (source : SVSignal) (count : Nat)
  | Concat (lhs rhs : SVSignal)
  | Mux (a b sel : SVSignal)
  | InstanceOutput (instance_name : String) (output_name : String)
deriving DecidableEq

/-- A register of the later-version graph: named, with optional initial
value and a next cell that drive_next_with fills. -/
structure SVRegister where
  name : String
  bit_width : Nat
  initial_value : Option Nat
  next : Option SVSignal
deriving DecidableEq

/-- An instance of the later-version graph: named use of an instantiated
module, with the map of driven inputs. -/
structure SVInstance where
  name : String
  instantiated_module_name : String
  driven_inputs : List (String × SVSignal)
deriving DecidableEq

/-- A memory of the later-version graph, reduced to the attributes the
validator inspects: its read ports, initial contents and write port. -/
structure SVMem where
  name : String
  address_bit_width : Nat
  element_bit_width : Nat
  read_port_count : Nat
  has_initial_contents : Bool
  has_write_port : Bool
deriving DecidableEq

/-- A module of the later-version graph. -/
structure SVModule where
  name : String
  inputs : List (String × Nat)
  outputs : List (String × SVSignal)
  registers : List SVRegister
  instances : List SVInstance
  mems : List SVMem
deriving DecidableEq

/-- The context (module registry) of the later-version graph. -/
abbrev SVGraph := List SVModule

/-- Module lookup by name in the context. -/
def svFindModule (g : SVGraph) (name : String) : Option SVModule :=
  g.find? (fun m => m.name == name)

/-- The failure modes of validate_module_hierarchy, as enumerated by the
spec and by the panic messages asserted in the tests of
system_verilog.rs. -/
inductive ValidationError where
  | unknownModule (module_name : String)
  | recursiveModule (module_name instance_name : String)
  | undrivenInstanceInput (module_name instance_name input_name : String)
  | undrivenRegister (module_name register_name : String)
  | memWithoutReadPorts (module_name mem_name : String)
  | memWithoutSource (module_name mem_name : String)
  | combinationalLoop (output_name : String)
deriving DecidableEq

/-- Modelled from the spec: crate validation is not among the provided
sources. Pass 1 of spec section 4.D, recursion detection over the
module-instantiates-module edges reachable from the root; any module name
already on the current path closes a cycle. Fuel bounds the walk (one
module lookup per unit); the caller passes enough for any acyclic walk. -/
def svCheckRecursion (g : SVGraph) : Nat → List String → String → Except ValidationError Unit
  | 0, _, module_name => .error (.recursiveModule module_name "")
  | fuel + 1, path, module_name =>
    match svFindModule g module_name with
    | none => .error (.unknownModule module_name)
    | some m =>
      m.instances.foldlM
        (fun _ inst =>
          if (module_name :: path).contains inst.instantiated_module_name then
            .error (.recursiveModule inst.instantiated_module_name inst.name)
          else
            svCheckRecursion g fuel (module_name :: path) inst.instantiated_module_name)
        ()

/-- Total number of instance edges in the graph, a bound for the reachable
module collection. -/
def svTotalInstances (g : SVGraph) : Nat :=
  g.foldl (fun acc m => acc + m.instances.length) 0

/-- Modelled from the spec: collects the transitively referenced module
set rooted at the worklist, skipping names already collected. Every step
consumes one unit of fuel and one worklist entry, and enqueues at most the
instance edges of one module, so svTotalInstances g + 2 units suffice when
the worklist starts with one name. -/
def svCollectReachable (g : SVGraph) : Nat → List String → List String → List String
  | 0, acc, _ => acc
  | _ + 1, acc, [] => acc
  | fuel + 1, acc, n :: rest =>
    if acc.contains n then svCollectReachable g fuel acc rest
    else
      match svFindModule g n with
      | none => svCollectReachable g fuel (acc ++ [n]) rest
      | some m =>
        svCollectReachable g fuel (acc ++ [n])
          (m.instances.map (fun i => i.instantiated_module_name) ++ rest)

/-- Modelled from the spec: pass 2 of section 4.D (driven-ness of every
register and of every declared input of every instance) together with the
memory checks (at least one read port; initial contents or a write
port). -/
def svCheckModuleDriven (g : SVGraph) (m : SVModule) : Except ValidationError Unit := do
  m.registers.foldlM
    (fun _ r =>
      if r.next.isNone then Except.error (.undrivenRegister m.name r.name) else .ok ())
    ()
  m.instances.foldlM
    (fun _ inst =>
      match svFindModule g inst.instantiated_module_name with
      | none => Except.error (.unknownModule inst.instantiated_module_name)
      | some im =>
        im.inputs.foldlM
          (fun _ p =>
            if (btreeLookup inst.driven_inputs p.1).isNone then
              Except.error (.undrivenInstanceInput m.name inst.name p.1)
            else .ok ())
          ())
    ()
  m.mems.foldlM
    (fun _ mem =>
      if mem.read_port_count = 0 then Except.error (.memWithoutReadPorts m.name mem.name)
      else if !mem.has_initial_contents && !mem.has_write_port then
        Except.error (.memWithoutSource m.name mem.name)
      else .ok ())
    ()

/-- Name reported for a combinational loop, taken from the node at which
the dependency walk closed on itself. -/
def svLoopName : SVSignal → String
  | .InstanceOutput _ out => out
  | .Input n _ => n
  | _ => ""

/-- Modelled from the spec: pass 3 of section 4.D, combinational-loop
detection. The walk follows signal evaluation dependencies across instance
boundaries: register value nodes cut dependencies; an instance output
depends on the signal driving that output inside the instantiated module
(entering the child context); an input met inside a child context forwards
to the signal the parent drives it with (exiting to the parent context). A
context is the stack of (instance name, parent module name) pairs from the
root. Revisiting a (context, module, signal) triple already on the current
path is a combinational loop. Fuel bounds the walk; exhaustion is reported
as a loop and is unreachable when the caller passes enough fuel for a
loop-free graph. -/
def svCombCheck (g : SVGraph) :
    Nat → List (String × String) → String → SVSignal →
    List (List (String × String) × String × SVSignal) → Except ValidationError Unit
  | 0, _, _, s, _ => .error (.combinationalLoop (svLoopName s))
  | fuel + 1, ctx, mname, s, stack =>
    if stack.contains (ctx, mname, s) then .error (.combinationalLoop (svLoopName s))
    else
      let stack1 := (ctx, mname, s) :: stack
      match s with
      | .Lit _ _ => .ok ()
      | .Reg _ _ => .ok ()
      | .Input name _ =>
        match ctx with
        | [] => .ok ()
        | (inst_name, parent_m) :: rest =>
          match svFindModule g parent_m with
          | none => .error (.unknownModule parent_m)
          | some pm =>
            match pm.instances.find? (fun i => i.name == inst_name) with
            | none => .error (.unknownModule inst_name)
            | some inst =>
              match btreeLookup inst.driven_inputs name with
              | none => .error (.undrivenInstanceInput parent_m inst_name name)
              | some src => svCombCheck g fuel rest parent_m src stack1
      | .InstanceOutput inst_name out_name =>
        match svFindModule g mname with
        | none => .error (.unknownModule mname)
        | some m =>
          match m.instances.find? (fun i => i.name == inst_name) with
          | none => .error (.unknownModule inst_name)
          | some inst =>
            match svFindModule g inst.instantiated_module_name with
            | none => .error (.unknownModule inst.instantiated_module_name)
            | some im =>
              match btreeLookup im.outputs out_name with
              | none => .error (.unknownModule out_name)
              | some src =>
                svCombCheck g fuel ((inst_name, mname) :: ctx)
                  inst.instantiated_module_name src stack1
      | .UnOpNot src => svCombCheck g fuel ctx mname src stack1
      | .BinOp _ l r => do
        svCombCheck g fuel ctx mname l stack1
        svCombCheck g fuel ctx mname r stack1
      | .Bit src _ => svCombCheck g fuel ctx mname src stack1
      | .Bits src _ _ => svCombCheck g fuel ctx mname src stack1
      | .Repeat src _ => svCombCheck g fuel ctx mname src stack1
      | .Concat l r => do
        svCombCheck g fuel ctx mname l stack1
        svCombCheck g fuel ctx mname r stack1
      | .Mux a b sel => do
        svCombCheck g fuel ctx mname a stack1
        svCombCheck g fuel ctx mname b stack1
        svCombCheck g fuel ctx mname sel stack1

/-- Node count of a signal tree. -/
def SVSignal.size : SVSignal → Nat
  | .Lit _ _ => 1
  | .Input _ _ => 1
  | .Reg _ _ => 1
  | .UnOpNot s => s.size + 1
  | .BinOp _ l r => l.size + r.size + 1
  | .Bit s _ => s.size + 1
  | .Bits s _ _ => s.size + 1
  | .Repeat s _ => s.size + 1
  | .Concat l r => l.size + r.size + 1
  | .Mux a b sel => a.size + b.size + sel.size + 1
  | .InstanceOutput _ _ => 1

/-- Total number of signal tree nodes referenced by a module. -/
def svModuleSize (m : SVModule) : Nat :=
  m.outputs.foldl (fun acc p => acc + p.2.size) 0
    + m.instances.foldl
        (fun acc i => acc + i.driven_inputs.foldl (fun a p => a + p.2.size) 0) 0
    + m.registers.foldl (fun acc r => acc + (r.next.map SVSignal.size).getD 0) 0
    + 1

/-- Total number of signal tree nodes in the graph. -/
def svGraphSize (g : SVGraph) : Nat :=
  g.foldl (fun acc m => acc + svModuleSize m) 0 + g.length + 1

/-- Fuel for the combinational walk: generous bound derived from the total
size of the graph (the walk can visit each (context, signal) pair at most
once before the stack check fires, and the number of distinct contexts is
bounded by the acyclic instance hierarchy). -/
def svCombFuel (g : SVGraph) : Nat :=
  (svGraphSize g + 2) * (svGraphSize g + 2)

/-- Modelled from the spec: runs the combinational-loop walk from every
signal the root module evaluates (output sources, driven instance inputs
and register next sources) in the root context. -/
def svCheckCombLoops (g : SVGraph) (root : SVModule) : Except ValidationError Unit := do
  root.outputs.foldlM (fun _ p => svCombCheck g (svCombFuel g) [] root.name p.2 []) ()
  root.instances.foldlM
    (fun _ inst =>
      inst.driven_inputs.foldlM
        (fun _ p => svCombCheck g (svCombFuel g) [] root.name p.2 []) ())
    ()
  root.registers.foldlM
    (fun _ r =>
      match r.next with
      | some n => svCombCheck g (svCombFuel g) [] root.name n []
      | none => .ok ())
    ()

/-- Modelled from the spec: validate_module_hierarchy from crate
validation (not among the provided sources), run by generate before any
output is written. The three passes of spec section 4.D in order:
recursion detection, driven-ness and memory checks over the transitively
referenced module set, and combinational-loop detection. -/
def validate_module_hierarchy (g : SVGraph) (root_name : String) :
    Except ValidationError Unit := do
  svCheckRecursion g (g.length + 1) [] root_name
  (svCollectReachable g (svTotalInstances g + 2) [] [root_name]).foldlM
    (fun _ n =>
      match svFindModule g n with
      | none => Except.error (.unknownModule n)
      | some m => svCheckModuleDriven g m)
    ()
  match svFindModule g root_name with
  | none => Except.error (.unknownModule root_name)
  | some root => svCheckCombLoops g root

/-- Rendering of a binary operator. -/
def svBinOpString : SVBinOp → String
  | .BitAnd => " & "
  | .BitOr => " | "
  | .BitXor => " ^ "
  | .Add => " + "
  | .Eq => " == "
  | .Ne => " != "
  | .Lt => " < "
  | .Le => " <= "
  | .Gt => " > "
  | .Ge => " >= "
  | .LtSigned => " < "
  | .LeSigned => " <= "
  | .GtSigned => " > "
  | .GeSigned => " >= "

/-- Modelled from the spec: the expression compiler (system_verilog
compiler.rs is not among the provided sources) lowered to a direct
expression printer; the textual formatting details of the emitter are
explicitly out of scope of the spec (section 1), so common-subexpression
elimination and exact literal formatting are not reproduced. -/
def svExprString : SVSignal → String
  | .Lit v w => toString w ++ "d" ++ toString v
  | .Input n _ => n
  | .Reg n _ => "__reg_" ++ n
  | .UnOpNot s => "~" ++ svExprString s
  | .BinOp op l r => "(" ++ svExprString l ++ svBinOpString op ++ svExprString r ++ ")"
  | .Bit s i => "(" ++ svExprString s ++ "[" ++ toString i ++ "])"
  | .Bits s hi lo => "(" ++ svExprString s ++ "[" ++ toString hi ++ ":" ++ toString lo ++ "])"
  | .Repeat s c => "(" ++ toString c ++ " x " ++ svExprString s ++ ")"
  | .Concat l r => "(" ++ svExprString l ++ " ++ " ++ svExprString r ++ ")"
  | .Mux a b sel => "(" ++ svExprString sel ++ " ? " ++ svExprString a ++ " : "
      ++ svExprString b ++ ")"
  | .InstanceOutput i o => "__" ++ i ++ "_output_" ++ o

/-- The emission phase of system_verilog.rs generate, as the list of lines
written: module header with reset_n, clk and the ports; logic declarations
for instance ports and register value/next pairs; instantiations; one
always_ff block per register; the assignment sequence; endmodule. Exact
spacing, commas and hex formatting are abbreviated (the emitter textual
formatting is out of scope of the spec). -/
def svEmitModule (g : SVGraph) (m : SVModule) : List String :=
  let header :=
    ["module " ++ m.name ++ "(", "input wire logic reset_n,", "input wire logic clk"]
      ++ m.inputs.map (fun p => "input wire logic " ++ p.1)
      ++ m.outputs.map (fun p => "output wire logic " ++ p.1)
      ++ [");"]
  let node_decls :=
    (m.instances.map (fun inst =>
      match svFindModule g inst.instantiated_module_name with
      | none => []
      | some im =>
        im.inputs.map (fun p => "logic __" ++ inst.name ++ "_input_" ++ p.1 ++ ";")
          ++ im.outputs.map (fun p => "logic __" ++ inst.name ++ "_output_" ++ p.1 ++ ";"))).flatten
      ++ (m.registers.enum.map (fun p =>
        ["logic __reg_" ++ p.2.name ++ "_" ++ toString p.1 ++ ";",
         "logic __reg_" ++ p.2.name ++ "_" ++ toString p.1 ++ "_next;"])).flatten
  let instantiations :=
    (m.instances.map (fun inst =>
      [inst.instantiated_module_name ++ " " ++ inst.name ++ "(", ".reset_n(reset_n),",
       ".clk(clk)"]
        ++ inst.driven_inputs.map (fun p => "." ++ p.1 ++ "(__" ++ inst.name ++ "_input_"
          ++ p.1 ++ ")")
        ++ [");"])).flatten
  let always_blocks :=
    (m.registers.enum.map (fun p =>
      (if p.2.initial_value.isSome then
        ["always_ff @(posedge clk, negedge reset_n) begin",
         "if (~reset_n) begin",
         "__reg_" ++ p.2.name ++ "_" ++ toString p.1 ++ " <= "
           ++ toString (p.2.initial_value.getD 0) ++ ";",
         "end", "else begin"]
      else
        ["always_ff @(posedge clk) begin"])
        ++ ["__reg_" ++ p.2.name ++ "_" ++ toString p.1 ++ " <= __reg_" ++ p.2.name ++ "_"
          ++ toString p.1 ++ "_next;"]
        ++ (if p.2.initial_value.isSome then ["end"] else [])
        ++ ["end"])).flatten
  let assigns :=
    m.outputs.map (fun p => "assign " ++ p.1 ++ " = " ++ svExprString p.2 ++ ";")
      ++ (m.instances.map (fun inst =>
        inst.driven_inputs.map (fun p => "assign __" ++ inst.name ++ "_input_" ++ p.1
          ++ " = " ++ svExprString p.2 ++ ";"))).flatten
      ++ (m.registers.enum.map (fun p => "assign __reg_" ++ p.2.name ++ "_" ++ toString p.1
        ++ "_next = " ++ svExprString (p.2.next.getD (.Lit 0 1)) ++ ";"))
  header ++ node_decls ++ instantiations ++ always_blocks ++ assigns ++ ["endmodule"]

/-- system_verilog::generate from system_verilog.rs: validates the module
hierarchy first (a validation failure panics before anything touches the
writer), then builds the declaration tables and the assignment context,
and only then writes through the writer. The writer is modelled as the
list of lines already written, passed in and returned; a validation
failure returns the writer unchanged together with the error, success
returns the writer extended with the emitted lines. -/
def generate (g : SVGraph) (m : SVModule) (w : List String) :
    List String × Option ValidationError :=
  match validate_module_hierarchy g m.name with
  | .error e => (w, some e)
  | .ok () => (w ++ svEmitModule g m, none)

/-- C1: the claim states that every signal built through any constructor
satisfies 1 ≤ bit_width ≤ 128. Module::reg performs no bit-width bounds
check (the source carries a TODO in its place), so reg(0, None) and
reg(200, None) both construct register signals whose bit_width lies
outside [1, 128], contradicting the claimed invariant. -/
theorem c1_reg_bit_width_bounds_unchecked :
    (Module.reg ⟨0, 0⟩ 0 none).value.bit_width = 0 ∧
    (Module.reg ⟨0, 0⟩ 200 none).value.bit_width = 200 ∧
    ¬ MIN_SIGNAL_BIT_WIDTH ≤ (Module.reg ⟨0, 0⟩ 0 none).value.bit_width ∧
    ¬ (Module.reg ⟨0, 0⟩ 200 none).value.bit_width ≤ MAX_SIGNAL_BIT_WIDTH :=
  ⟨rfl, rfl, by decide, by decide⟩

/-- C3: the claim states that lit fails with WidthOutOfRange outside
[1, 128] (which the code does check) and with ValueTooWide when the value
does not fit in the width. The source carries a TODO in place of the
value-fits check, so lit(U32(256), 8) succeeds even though 256 needs nine
bits, contradicting the ValueTooWide half of the claim. -/
theorem c3_lit_value_too_wide_unchecked :
    Module.lit ⟨0, 0⟩ (Value.U32 256) 8 = .ok (.Lit 0 ⟨0, 0⟩ (Value.U32 256) 8) ∧
    2 ^ 8 ≤ (Value.U32 256).numericValue ∧
    Module.lit ⟨0, 0⟩ (Value.U32 0) 0 = .error (.widthTooSmall 0) ∧
    Module.lit ⟨0, 0⟩ (Value.U32 0) 129 = .error (.widthTooLarge 129) :=
  ⟨rfl, by decide, rfl, rfl⟩

/-- C4: the claim states that a second drive_next_with on the same
register is an error. The source carries a TODO in place of the
already-driven check and overwrites the next cell unconditionally: after
driving with n1 and then with n2, the register holds next = n2 and no
error occurred. -/
theorem c4_drive_next_with_overwrites :
    ((Module.reg ⟨0, 0⟩ 32 none).drive_next_with
        (.Lit 0 ⟨0, 0⟩ (Value.U32 1) 32)).drive_next_with
        (.Lit 0 ⟨0, 0⟩ (Value.U32 2) 32)
      = ⟨.Reg 0 ⟨0, 0⟩ (Value.U32 0) 32 (some (.Lit 0 ⟨0, 0⟩ (Value.U32 2) 32))⟩ ∧
    Signal.Lit 0 ⟨0, 0⟩ (Value.U32 1) 32 ≠ Signal.Lit 0 ⟨0, 0⟩ (Value.U32 2) 32 := by
  refine ⟨rfl, fun h => ?_⟩
  injection h with h1 h2 h3 h4
  exact absurd h3 (by decide)

/-- C5: the claim states that adding an input or output under an
already-used name of the same kind is an error. The source carries TODOs
in place of both duplicate-name checks and the BTreeMap insertion replaces
silently: a second input named i (and a second output named o) succeeds
and the table afterwards holds only the second entry. -/
theorem c5_duplicate_names_silently_replace :
    Module.input ⟨0, 0⟩ [] "i" 3
      = .ok ([("i", .Input 0 ⟨0, 0⟩ "i" 3)], .Input 0 ⟨0, 0⟩ "i" 3) ∧
    Module.input ⟨0, 0⟩ [("i", .Input 0 ⟨0, 0⟩ "i" 3)] "i" 5
      = .ok ([("i", .Input 0 ⟨0, 0⟩ "i" 5)], .Input 0 ⟨0, 0⟩ "i" 5) ∧
    Module.output ⟨0, 0⟩ [] "o" (.Lit 0 ⟨0, 0⟩ (Value.U32 0) 1)
      = .ok [("o", ⟨.Lit 0 ⟨0, 0⟩ (Value.U32 0) 1⟩)] ∧
    Module.output ⟨0, 0⟩ [("o", ⟨.Lit 0 ⟨0, 0⟩ (Value.U32 0) 1⟩)] "o"
        (.Lit 0 ⟨0, 0⟩ (Value.U32 1) 1)
      = .ok [("o", ⟨.Lit 0 ⟨0, 0⟩ (Value.U32 1) 1⟩)] :=
  ⟨rfl, rfl, rfl, rfl⟩

/-- C6: the claim states that mux aborts construction unless a and b have
equal widths and sel is one bit wide, and that the result width equals the
width of a. The source carries TODOs in place of both checks: with a of
width 4, b of width 8 and sel of width 2, construction succeeds anyway
(contradicting the abort half), and the result width is the width of a
(the half of the claim the code does satisfy). -/
theorem c6_mux_width_checks_missing :
    (Signal.Lit 0 ⟨0, 0⟩ (Value.U32 0) 4).bit_width
        ≠ (Signal.Lit 0 ⟨0, 0⟩ (Value.U32 0) 8).bit_width ∧
    (Signal.Lit 0 ⟨0, 0⟩ (Value.U32 0) 2).bit_width ≠ 1 ∧
    Module.mux ⟨0, 0⟩ (.Lit 0 ⟨0, 0⟩ (Value.U32 0) 4) (.Lit 0 ⟨0, 0⟩ (Value.U32 0) 8)
        (.Lit 0 ⟨0, 0⟩ (Value.U32 0) 2)
      = .Mux 0 ⟨0, 0⟩ (.Lit 0 ⟨0, 0⟩ (Value.U32 0) 4) (.Lit 0 ⟨0, 0⟩ (Value.U32 0) 8)
        (.Lit 0 ⟨0, 0⟩ (Value.U32 0) 2) ∧
    (Module.mux ⟨0, 0⟩ (.Lit 0 ⟨0, 0⟩ (Value.U32 0) 4) (.Lit 0 ⟨0, 0⟩ (Value.U32 0) 8)
        (.Lit 0 ⟨0, 0⟩ (Value.U32 0) 2)).bit_width = 4 :=
  ⟨by decide, by decide, rfl, rfl⟩

/-- C7: the bitwise binary operators abort when the operands belong to
different modules (which covers different contexts, since a signal records
the context of its module) or have different bit widths; when construction
succeeds the operands shared context, module and bit width. The
hypotheses record the construction invariant that a signal context field
equals the context of its module, which every constructor establishes. -/
theorem c7_bitwise_binop_checks (a b : Signal)
    (ha : a.context = a.module.context) (hb : b.context = b.module.context) :
    ((a.module ≠ b.module ∨ a.context ≠ b.context ∨ a.bit_width ≠ b.bit_width) →
      (∃ e, a.bitand b = .error e) ∧ (∃ e, a.bitor b = .error e) ∧
        (∃ e, a.bitxor b = .error e)) ∧
    (∀ s, a.bitand b = .ok s ∨ a.bitor b = .ok s ∨ a.bitxor b = .ok s →
      a.context = b.context ∧ a.module = b.module ∧ a.bit_width = b.bit_width) := by
  constructor
  · intro hbad
    by_cases hm : a.module = b.module
    · by_cases hw : a.bit_width = b.bit_width
      · exfalso
        rcases hbad with h | h | h
        · exact h hm
        · exact h (ha.trans ((congrArg Module.context hm).trans hb.symm))
        · exact h hw
      · exact ⟨⟨.widthMismatch a.bit_width b.bit_width, by simp [Signal.bitand, hm, hw]⟩,
          ⟨.widthMismatch a.bit_width b.bit_width, by simp [Signal.bitor, hm, hw]⟩,
          ⟨.widthMismatch a.bit_width b.bit_width, by simp [Signal.bitxor, hm, hw]⟩⟩
    · exact ⟨⟨.crossModule, by simp [Signal.bitand, hm]⟩,
        ⟨.crossModule, by simp [Signal.bitor, hm]⟩,
        ⟨.crossModule, by simp [Signal.bitxor, hm]⟩⟩
  · intro s hs
    by_cases hm : a.module = b.module
    · by_cases hw : a.bit_width = b.bit_width
      · exact ⟨ha.trans ((congrArg Module.context hm).trans hb.symm), hm, hw⟩
      · exfalso
        rcases hs with h | h | h <;>
          simp [Signal.bitand, Signal.bitor, Signal.bitxor, hm, hw] at h
    · exfalso
      rcases hs with h | h | h <;>
        simp [Signal.bitand, Signal.bitor, Signal.bitxor, hm] at h

/-- Witness for C7 at concrete three-bit inputs of one module: the
operator succeeds and the operands indeed share context, module and bit
width. -/
theorem c7_bitwise_binop_checks_witness :
    (Signal.Input 0 ⟨0, 0⟩ "a" 3).context = (Signal.Input 0 ⟨0, 0⟩ "b" 3).context ∧
    (Signal.Input 0 ⟨0, 0⟩ "a" 3).module = (Signal.Input 0 ⟨0, 0⟩ "b" 3).module ∧
    (Signal.Input 0 ⟨0, 0⟩ "a" 3).bit_width = (Signal.Input 0 ⟨0, 0⟩ "b" 3).bit_width :=
  (c7_bitwise_binop_checks (.Input 0 ⟨0, 0⟩ "a" 3) (.Input 0 ⟨0, 0⟩ "b" 3) rfl rfl).2
    (.BinOp 0 ⟨0, 0⟩ (.Input 0 ⟨0, 0⟩ "a" 3) (.Input 0 ⟨0, 0⟩ "b" 3) .BitAnd)
    (Or.inl rfl)

/-- C8: posedge_clk alone never changes any output field of a generated
simulator module; outputs change only at the next prop. In the model of
the generated two-phase machine, latching the register next values leaves
the output fields untouched, for every module and every state. -/
theorem c8_posedge_clk_preserves_outputs {I R O : Type} (m : SimulatorModule I R O)
    (s : SimulatorState I R O) :
    (m.posedge_clk s).outputs = s.outputs ∧ (m.posedge_clk s).inputs = s.inputs :=
  ⟨rfl, rfl⟩

/-- Validation of the modelled simulator semantics against the
reg_test_module test of kaze-sim-tests/src/lib.rs: the exact sequence of
assertions of the test holds in the model, including the two No
propagation checks after posedge_clk. -/
theorem regTestModule_trace_matches_source_test :
    (regTestModule.prop (regTestModule.reset (regTestModule.new (0, 0) (0, 0)))).outputs.1
        = 0 ∧
    (let s2 := regTestModule.prop (regTestModule.reset (regTestModule.new (0, 0) (0, 0)))
     let s3 := regTestModule.prop { s2 with inputs := (0xdeadbeef, s2.inputs.2) }
     s3.outputs.1 = 0 ∧
     (regTestModule.posedge_clk s3).outputs.1 = 0 ∧
     (regTestModule.prop (regTestModule.posedge_clk s3)).outputs.1 = 0xdeadbeef ∧
     (let s4 := regTestModule.prop (regTestModule.posedge_clk s3)
      let s5 := regTestModule.prop { s4 with inputs := (0xfadebabe, s4.inputs.2) }
      s5.outputs.1 = 0xdeadbeef ∧
      (let s6 := regTestModule.prop { s5 with inputs := (s5.inputs.1, 0xfadebabe) }
       let s7 := regTestModule.prop (regTestModule.posedge_clk s6)
       s7.outputs.2 = 0xfadebabe ∧
       (regTestModule.prop (regTestModule.reset s7)).outputs.2 = 0xfadebabe))) := by
  constructor
  · rfl
  · refine ⟨rfl, rfl, by decide, by decide, by decide, by decide⟩

/-- C9: get_child is memoized: calling it again with the same receiver and
the same instance returns the same child (pointer equality, rendered as
equality of arena indices) and allocates nothing (the arena is returned
unchanged). -/
theorem c9_get_child_memoized (arena : List ModuleContext) (self inst : Nat)
    (h : self < arena.length) :
    ModuleContext.get_child (ModuleContext.get_child arena self inst).1 self inst
      = ModuleContext.get_child arena self inst := by
  have hbase : ∀ (l : List ModuleContext) (i k : Nat),
      ModuleContext.get_child l i k =
        match hashMapLookup (l.getD i default).children k with
        | some c => (l, c)
        | none =>
          ((l ++ [(⟨some (k, i), []⟩ : ModuleContext)]).set i
              ⟨(l.getD i default).instanceAndParent,
                (k, l.length) :: (l.getD i default).children⟩, l.length) :=
    fun _ _ _ => rfl
  cases hlk : hashMapLookup (arena.getD self default).children inst with
  | some c =>
    have h1 : ModuleContext.get_child arena self inst = (arena, c) := by
      rw [hbase, hlk]
    rw [h1]
    exact h1
  | none =>
    have h1 : ModuleContext.get_child arena self inst
        = ((arena ++ [(⟨some (inst, self), []⟩ : ModuleContext)]).set self
            ⟨(arena.getD self default).instanceAndParent,
              (inst, arena.length) :: (arena.getD self default).children⟩, arena.length) := by
      rw [hbase, hlk]
    have hlen : self < (arena ++ [(⟨some (inst, self), []⟩ : ModuleContext)]).length := by
      simp only [List.length_append, List.length_cons, List.length_nil]
      omega
    have hget :
        (((arena ++ [(⟨some (inst, self), []⟩ : ModuleContext)]).set self
            ⟨(arena.getD self default).instanceAndParent,
              (inst, arena.length) :: (arena.getD self default).children⟩).getD self default)
          = ⟨(arena.getD self default).instanceAndParent,
              (inst, arena.length) :: (arena.getD self default).children⟩ := by
      rw [List.getD_eq_getElem?_getD, List.getElem?_set_eq_of_lt _ hlen]
      rfl
    rw [h1, hbase, hget]
    simp [hashMapLookup]

/-- Witness for C9 on a concrete one-node arena. -/
theorem c9_get_child_memoized_witness :
    ModuleContext.get_child
        (ModuleContext.get_child [ModuleContext.new] 0 7).1 0 7
      = ModuleContext.get_child [ModuleContext.new] 0 7 :=
  c9_get_child_memoized [ModuleContext.new] 0 7 (by decide)

/-- C10: reg with initial_value = None stores the concrete initial value
Value::U32(0): the constructed register is definitionally the same as one
built with Some(U32(0)), so through this API no register is
distinguishable from one explicitly initialised to zero. -/
theorem c10_reg_none_initial_value_is_u32_zero (m : Module) (bit_width : Nat) :
    Module.reg m bit_width none = Module.reg m bit_width (some (Value.U32 0)) ∧
    (Module.reg m bit_width none).value
      = .Reg m.context m (Value.U32 0) bit_width none :=
  ⟨rfl, rfl⟩

/-- C2: generate runs the validator before anything is written through the
writer: a validation failure returns the writer exactly as it was (nothing
is emitted), and on success the full emission is appended — there is no
partial emission. -/
theorem c2_validation_failure_emits_nothing (g : SVGraph) (m : SVModule)
    (w : List String) :
    (∀ e, validate_module_hierarchy g m.name = .error e → generate g m w = (w, some e)) ∧
    (validate_module_hierarchy g m.name = .ok () →
      generate g m w = (w ++ svEmitModule g m, none)) := by
  constructor
  · intro e h
    simp [generate, h]
  · intro h
    simp [generate, h]

/-- Witness for C2 on a module with an undriven register: validation
fails with that error and generate writes nothing. -/
theorem c2_validation_failure_emits_nothing_witness :
    validate_module_hierarchy [⟨"A", [], [], [⟨"r", 1, none, none⟩], [], []⟩] "A"
        = .error (.undrivenRegister "A" "r") ∧
    generate [⟨"A", [], [], [⟨"r", 1, none, none⟩], [], []⟩]
        ⟨"A", [], [], [⟨"r", 1, none, none⟩], [], []⟩ []
      = ([], some (.undrivenRegister "A" "r")) :=
  ⟨rfl,
    (c2_validation_failure_emits_nothing [⟨"A", [], [], [⟨"r", 1, none, none⟩], [], []⟩]
        ⟨"A", [], [], [⟨"r", 1, none, none⟩], [], []⟩ []).1
      (.undrivenRegister "A" "r") rfl⟩

end Kaze
